import Mathlib

/-!
Shallow embedding of the gpustat-rs core (src/core.rs) and renderer
(src/display.rs), together with theorems checking the natural-language
specification against this embedding.

Modelling conventions:
  * Rust strings are modelled as Lean `String` with character-based length
    and slicing.
  * Fallible NVML / procfs calls are modelled as `Except String α` fields of
    explicit environment records (`NvmlEnv`, `DeviceData`, `SysEnv`); the
    `.ok()` adapter of Rust is `Except.toOption`.
  * The lazily built, process-wide Ngid-to-PID mapping (a `OnceLock`ed
    `HashMap<u32,u32>` in the source) is modelled as the already built
    read-only function `SysEnv.mapping : Nat → Option Nat`.
  * `DateTime<Utc>` timestamps are opaque to every claim; the collection
    stores the formatted timestamp string directly.
  * All functions are total computable Lean functions, so "never panics" is
    reflected by well-typed totality.
-/

namespace GpustatRs

/-- Constant `MB` from core.rs: bytes per megabyte. -/
def MB : Nat := 1024 * 1024

/-- ANSI escape wrapper used to model the `colored` crate's styling. -/
def ansi (code : String) (s : String) : String :=
  "\x1b[" ++ code ++ "m" ++ s ++ "\x1b[0m"

def cyan (s : String) : String := ansi "36" s

def blue (s : String) : String := ansi "34" s

def red (s : String) : String := ansi "31" s

def green (s : String) : String := ansi "32" s

def magenta (s : String) : String := ansi "35" s

def yellow (s : String) : String := ansi "33" s

def bright_black (s : String) : String := ansi "90" s

def dimmed (s : String) : String := ansi "2" s

def bold_red (s : String) : String := ansi "1;31" s

def bold_cyan (s : String) : String := ansi "1;36" s

def bold_green (s : String) : String := ansi "1;32" s

def bold_magenta (s : String) : String := ansi "1;35" s

def bold_yellow (s : String) : String := ansi "1;33" s

def bold_white (s : String) : String := ansi "1;37" s

/-- `GpuProcessInfo` from core.rs: one process's usage of a device. -/
structure GpuProcessInfo where
  pid : Nat
  username : Option String
  command : String
  gpu_memory_usage : Option Nat
  username_from_ngid_mapping : Bool
  real_pid : Option Nat
  deriving Repr, DecidableEq

/-- `GpuStat` from core.rs: a single GPU's statistics. -/
structure GpuStat where
  index : Nat
  name : String
  uuid : String
  temperature : Option Nat
  fan_speed : Option Nat
  utilization : Option Nat
  utilization_enc : Option Nat
  utilization_dec : Option Nat
  power_draw : Option Nat
  power_limit : Option Nat
  memory_used : Nat
  memory_total : Nat
  processes : Option (List GpuProcessInfo)
  available : Bool
  deriving Repr, DecidableEq

/-- `GpuStatCollection` from core.rs; `query_time` holds the formatted
timestamp string. -/
structure GpuStatCollection where
  hostname : String
  query_time : String
  driver_version : Option String
  gpus : List GpuStat
  deriving Repr, DecidableEq

/-- `UsedGpuMemory` from nvml_wrapper: tri-state per-process memory. -/
inductive UsedGpuMemory where
  | Used : Nat → UsedGpuMemory
  | Unavailable : UsedGpuMemory
  deriving Repr, DecidableEq

/-- One process entry returned by an NVML process-list query. -/
structure NvProcess where
  pid : Nat
  used_gpu_memory : UsedGpuMemory
  deriving Repr, DecidableEq

/-- `MemoryInfo` returned by `device.memory_info()`: byte counts. -/
structure MemoryInfo where
  used : Nat
  total : Nat
  deriving Repr, DecidableEq

/-- Utilization record returned by `device.utilization_rates()`. -/
structure UtilizationRates where
  gpu : Nat
  deriving Repr, DecidableEq

/-- Utilization record returned by encoder/decoder utilization queries. -/
structure UtilizationInfo where
  utilization : Nat
  deriving Repr, DecidableEq

/-- The observable behaviour of one NVML device handle: every call the
sampler makes, each individually fallible exactly as in the source. -/
structure DeviceData where
  name : Except String String
  uuid : Except String String
  temperature : Except String Nat
  fan_speed : Except String Nat
  memory_info : Except String MemoryInfo
  utilization_rates : Except String UtilizationRates
  encoder_utilization : Except String UtilizationInfo
  decoder_utilization : Except String UtilizationInfo
  power_usage : Except String Nat
  enforced_power_limit : Except String Nat
  running_compute_processes : Except String (List NvProcess)
  running_graphics_processes : Except String (List NvProcess)

/-- The observable behaviour of the NVML root handle. -/
structure NvmlEnv where
  device_count : Except String Nat
  device : Nat → Except String DeviceData
  sys_driver_version : Except String String

/-- One `/proc/<pid>` entry as `get_process_info`'s direct lookup reads it:
owner uid, command line, and the short `comm` field of `stat`. -/
structure ProcEntry where
  uid : Except String Nat
  cmdline : Except String (List String)
  stat_comm : Except String String

/-- The host-side environment: process table, user database, hostname,
current formatted time, and the (already built) Ngid-to-PID mapping. -/
structure SysEnv where
  procTable : Nat → Option ProcEntry
  user_name : Nat → Option String
  hostname : Except String String
  query_time : String
  mapping : Nat → Option Nat

/-- Rust `Result::is_err`. -/
def exceptIsErr : Except String α → Bool
  | .error _ => true
  | .ok _ => false

/-- Rust `Result::unwrap_or_default` for list results. -/
def unwrap_or_default : Except String (List α) → List α
  | .ok l => l
  | .error _ => []

/-- Split a character list at `/` separators; the accumulator holds the
characters of the current component in reverse. -/
def slash_split : List Char → List Char → List String
  | [], acc => [acc.reverse.asString]
  | c :: rest, acc =>
    if c = '/' then acc.reverse.asString :: slash_split rest []
    else slash_split rest (c :: acc)

/-- `Path::file_name()` of Rust on our string model: the last path
component that is not empty and not `"."`, unless that component
is `".."`. -/
def path_file_name (p : String) : Option String :=
  let comps := (slash_split p.toList []).filter (fun c => c != "" && c != ".")
  match comps.getLast? with
  | some last => if last = ".." then none else some last
  | none => none

/-- The `try_lookup` closure inside `get_process_info` (core.rs:166-197):
direct procfs lookup of username and command for one candidate host pid. -/
def try_lookup (sys : SysEnv) (p : Nat) : Option String × String :=
  match sys.procTable p with
  | none => (none, "?")
  | some process =>
    let username := process.uid.toOption.bind (fun uid => sys.user_name uid)
    let command :=
      (process.cmdline.toOption.bind (fun cmdline =>
        match cmdline with
        | [] => process.stat_comm.toOption
        | c0 :: _ => some ((path_file_name c0).getD "?"))).getD "?"
    (username, command)

/-- The tuple returned by `get_process_info`
`(username, command, resolved_via_ngid_mapping, real_pid_when_mapped)`. -/
structure ProcessLookupResult where
  username : Option String
  command : String
  from_mapping : Bool
  real_pid : Option Nat
  deriving Repr, DecidableEq

/-- `get_process_info` from core.rs (Linux path): direct lookup, then the
Ngid-to-PID mapping consultation that overrides the direct result when the
mapping points elsewhere. -/
def get_process_info (sys : SysEnv) (pid : Nat) : ProcessLookupResult :=
  let result := try_lookup sys pid
  match sys.mapping pid with
  | some rp =>
    if rp ≠ pid then
      let result2 := try_lookup sys rp
      let from_mapping := result2.2 != "?"
      { username := result2.1, command := result2.2,
        from_mapping := from_mapping,
        real_pid := if from_mapping then some rp else none }
    else
      { username := result.1, command := result.2,
        from_mapping := false, real_pid := none }
  | none =>
      { username := result.1, command := result.2,
        from_mapping := false, real_pid := none }

/-- Body of the process loop in `get_gpu_info` (core.rs:280-294): build one
`GpuProcessInfo` from an NVML process entry. -/
def mkGpuProcessInfo (sys : SysEnv) (nv : NvProcess) : GpuProcessInfo :=
  let gpu_memory_mb :=
    match nv.used_gpu_memory with
    | .Used bytes => some (bytes / MB)
    | .Unavailable => none
  let r := get_process_info sys nv.pid
  { pid := nv.pid, username := r.username, command := r.command,
    gpu_memory_usage := gpu_memory_mb,
    username_from_ngid_mapping := r.from_mapping,
    real_pid := r.real_pid }

/-- The `for nv_process in ... .chain(...)` loop of `get_gpu_info` with its
`seen_pids` set (modelled as the list of pids already taken). -/
def process_merge_loop (sys : SysEnv) :
    List NvProcess → List Nat → List GpuProcessInfo
  | [], _ => []
  | p :: rest, seen =>
    if p.pid ∈ seen then
      process_merge_loop sys rest seen
    else
      mkGpuProcessInfo sys p :: process_merge_loop sys rest (p.pid :: seen)

/-- The process-list reconciliation of `get_gpu_info` (core.rs:262-297):
`None` when both queries fail, otherwise the merged, de-duplicated list. -/
def merge_processes (sys : SysEnv)
    (comp_result graphics_result : Except String (List NvProcess)) :
    Option (List GpuProcessInfo) :=
  if exceptIsErr comp_result && exceptIsErr graphics_result then
    none
  else
    some (process_merge_loop sys
      (unwrap_or_default comp_result ++ unwrap_or_default graphics_result) [])

/-- `get_gpu_info` from core.rs: sample one device. Required fields
propagate failure; optional metrics degrade to `none`. -/
def get_gpu_info (sys : SysEnv) (nvml : NvmlEnv) (index : Nat) :
    Except String GpuStat := do
  let device ← nvml.device index
  let name ← device.name
  let uuid ← device.uuid
  let temperature := device.temperature.toOption
  let fan_speed := device.fan_speed.toOption
  let memory ← device.memory_info
  let memory_used := memory.used / MB
  let memory_total := memory.total / MB
  let utilization := device.utilization_rates.toOption.map (fun u => u.gpu)
  let utilization_enc :=
    device.encoder_utilization.toOption.map (fun u => u.utilization)
  let utilization_dec :=
    device.decoder_utilization.toOption.map (fun u => u.utilization)
  let power_draw := device.power_usage.toOption.map (fun p => p / 1000)
  let power_limit := device.enforced_power_limit.toOption.map (fun p => p / 1000)
  let processes := merge_processes sys
    device.running_compute_processes device.running_graphics_processes
  .ok { index := index, name := name, uuid := uuid,
        temperature := temperature, fan_speed := fan_speed,
        utilization := utilization, utilization_enc := utilization_enc,
        utilization_dec := utilization_dec, power_draw := power_draw,
        power_limit := power_limit, memory_used := memory_used,
        memory_total := memory_total, processes := processes,
        available := true }

/-- The placeholder `GpuStat` pushed by `new_query` when `get_gpu_info`
fails for one device (core.rs:74-89). -/
def errorGpuStat (index : Nat) (e : String) : GpuStat :=
  { index := index, name := "((Error: " ++ e ++ "))", uuid := "",
    temperature := none, fan_speed := none, utilization := none,
    utilization_enc := none, utilization_dec := none,
    power_draw := none, power_limit := none,
    memory_used := 0, memory_total := 0,
    processes := none, available := false }

/-- One iteration of the device loop in `new_query`: the sampled stat on
success, the error placeholder on failure. -/
def sample_or_placeholder (sys : SysEnv) (nvml : NvmlEnv) (index : Nat) :
    GpuStat :=
  match get_gpu_info sys nvml index with
  | .ok stat => stat
  | .error e => errorGpuStat index e

/-- Device index selection in `new_query`: the explicit list when given,
else `(0..device_count).collect()`. -/
def gpus_to_query (gpu_ids : Option (List Nat)) (device_count : Nat) :
    List Nat :=
  match gpu_ids with
  | some ids => ids
  | none => List.range device_count

/-- `GpuStatCollection::new_query` from core.rs. Only the device-count
query can fail the whole call; every per-device failure is absorbed. -/
def new_query (sys : SysEnv) (nvml : NvmlEnv)
    (gpu_ids : Option (List Nat)) : Except String GpuStatCollection :=
  match nvml.device_count with
  | .error e => .error e
  | .ok device_count =>
    let hostname :=
      match sys.hostname with
      | .ok h => h
      | .error _ => "unknown"
    let driver_version := nvml.sys_driver_version.toOption
    let ids := gpus_to_query gpu_ids device_count
    let gpus := ids.map (sample_or_placeholder sys nvml)
    .ok { hostname := hostname, query_time := sys.query_time,
          driver_version := driver_version, gpus := gpus }

/-- Constant `DEFAULT_GPUNAME_WIDTH` from display.rs. -/
def DEFAULT_GPUNAME_WIDTH : Nat := 16

/-- Constant `NOT_SUPPORTED` from display.rs. -/
def NOT_SUPPORTED : String := "Not Supported"

/-- `shorten_left` from display.rs: shorten a string from the left with an
ellipsis placeholder, keeping the rightmost characters. -/
def shorten_left (text : String) (width : Nat) (placeholder : String) :
    String :=
  if width = 0 then ""
  else if text.length ≤ width then text
  else if width ≤ placeholder.length then
    (placeholder.toList.take width).asString
  else
    placeholder ++
      (text.toList.drop (text.length - (width - placeholder.length))).asString

/-- `DisplayOptions` from display.rs. -/
structure DisplayOptions where
  show_cmd : Bool
  show_user : Bool
  show_pid : Bool
  show_fan_speed : Bool
  show_codec : Bool
  show_power : Bool
  show_power_limit : Bool
  no_processes : Bool
  no_header : Bool
  gpuname_width : Option Nat
  force_color : Bool
  no_color : Bool
  deriving Repr, DecidableEq

/-- `opt_repr` from display.rs: display an optional value with a
placeholder for `None`. -/
def opt_repr [ToString α] (v : Option α) (none_repr : String) : String :=
  match v with
  | some x => toString x
  | none => none_repr

/-- `rjust` from display.rs: right-justify to a width by left-padding with
spaces. -/
def rjust (v : String) (w : Nat) : String :=
  if v.length < w then (List.replicate (w - v.length) ' ').asString ++ v
  else v

/-- The `pid_str` binding inside `format_process` (display.rs:233-236):
`"<pid>-><real_pid>"` when a real host pid was resolved, else the reported
pid alone. -/
def pid_str (p : GpuProcessInfo) : String :=
  match p.real_pid with
  | some rp => toString p.pid ++ "->" ++ toString rp
  | none => toString p.pid

/-- `format_process` from display.rs: render one process segment. -/
def format_process (p : GpuProcessInfo) (opts : DisplayOptions)
    (use_color : Bool) : String :=
  let s := " "
  let show_username := opts.show_user || !opts.show_cmd
  let s :=
    if show_username then
      let username := p.username.getD "--"
      if use_color then
        s ++ (if p.username_from_ngid_mapping then green username
              else bright_black username)
      else s ++ username
    else s
  let s :=
    if opts.show_cmd then
      let s := if show_username then s ++ ":" else s
      if use_color then s ++ cyan p.command else s ++ p.command
    else s
  let s := if opts.show_pid then s ++ "/" ++ pid_str p else s
  let mem_str :=
    match p.gpu_memory_usage with
    | some m => toString m
    | none => "?"
  if use_color then s ++ "(" ++ yellow mem_str ++ "M)"
  else s ++ "(" ++ mem_str ++ "M)"

/-- The part of `GpuStat::format_line` before the memory segment: index,
name, temperature, optional fan, utilization, optional codec, optional
power (display.rs:61-167). -/
def format_line_lead (g : GpuStat) (opts : DisplayOptions)
    (use_color : Bool) : String :=
  let s :=
    if use_color then cyan ("[" ++ toString g.index ++ "] ")
    else "[" ++ toString g.index ++ "] "
  let gpu_width := opts.gpuname_width.getD DEFAULT_GPUNAME_WIDTH
  let s :=
    if gpu_width > 0 then
      let name := shorten_left g.name gpu_width "…"
      if use_color then
        let name_colored := if g.available then blue name else red name
        s ++ rjust name_colored gpu_width ++ " | "
      else s ++ rjust name gpu_width ++ " | "
    else s
  let temp_str := rjust (opt_repr g.temperature "??") 3
  let s :=
    if use_color then
      let temp_colored :=
        match g.temperature with
        | some t => if t < 50 then red temp_str else bold_red temp_str
        | none => temp_str
      s ++ temp_colored ++ "°C, "
    else s ++ temp_str ++ "°C, "
  let s :=
    if opts.show_fan_speed then
      let fan_str := rjust (opt_repr g.fan_speed "??") 3
      if use_color then
        let fan_colored :=
          match g.fan_speed with
          | some f => if f < 30 then cyan fan_str else bold_cyan fan_str
          | none => bold_cyan fan_str
        s ++ fan_colored ++ " %, "
      else s ++ fan_str ++ " %, "
    else s
  let util_display := rjust (opt_repr g.utilization "??") 3 ++ " %"
  let s :=
    if use_color then
      let util_colored :=
        match g.utilization with
        | some u => if u < 30 then green util_display
                    else bold_green util_display
        | none => bold_green util_display
      s ++ util_colored
    else s ++ util_display
  let s :=
    if opts.show_codec then
      let enc_str := rjust (opt_repr g.utilization_enc "??") 3
      let dec_str := rjust (opt_repr g.utilization_dec "??") 3
      let s := s ++ " ("
      let s :=
        if use_color then
          let enc_c :=
            match g.utilization_enc with
            | some u => if u < 50 then green enc_str else bold_green enc_str
            | none => bold_green enc_str
          let dec_c :=
            match g.utilization_dec with
            | some u => if u < 50 then green dec_str else bold_green dec_str
            | none => bold_green dec_str
          s ++ "E: " ++ enc_c ++ " %, D: " ++ dec_c ++ " %"
        else s ++ "E: " ++ enc_str ++ " %, D: " ++ dec_str ++ " %"
      s ++ ")"
    else s
  if opts.show_power then
    let pow_str := rjust (opt_repr g.power_draw "??") 3
    let s :=
      if use_color then
        -- The `(d as f32 / l as f32) < 0.4` threshold of the source,
        -- expressed on the integers.
        let pow_colored :=
          match g.power_draw, g.power_limit with
          | some d, some l =>
            if l > 0 && d * 10 < l * 4 then magenta pow_str
            else bold_magenta pow_str
          | _, _ => bold_magenta pow_str
        s ++ ",  " ++ pow_colored ++ " "
      else s ++ ",  " ++ pow_str ++ " "
    if opts.show_power_limit then
      let limit_str := rjust (opt_repr g.power_limit "??") 3
      if use_color then s ++ "/ " ++ magenta limit_str ++ " W"
      else s ++ "/ " ++ limit_str ++ " W"
    else s
  else s

/-- The memory segment of `GpuStat::format_line` (display.rs:169-181). -/
def format_line_mem (g : GpuStat) (use_color : Bool) : String :=
  " | " ++
    (if use_color then
      bold_yellow (rjust (toString g.memory_used) 5) ++ " / " ++
        yellow (rjust (toString g.memory_total) 5) ++ " MB"
    else
      rjust (toString g.memory_used) 5 ++ " / " ++
        rjust (toString g.memory_total) 5 ++ " MB")

/-- The process segment of `GpuStat::format_line` (display.rs:183-195). -/
def format_line_procs (g : GpuStat) (opts : DisplayOptions)
    (use_color : Bool) : String :=
  if !opts.no_processes then
    " |" ++
      (match g.processes with
      | none => " (" ++ NOT_SUPPORTED ++ ")"
      | some procs =>
        procs.foldl (fun acc p => acc ++ format_process p opts use_color) "")
  else ""

/-- `GpuStat::format_line` from display.rs: the full per-device line, built
left to right exactly as the source appends its segments. -/
def format_line (g : GpuStat) (opts : DisplayOptions) (use_color : Bool) :
    String :=
  format_line_lead g opts use_color ++ format_line_mem g use_color ++
    format_line_procs g opts use_color

/-- Color resolution at the top of `print_formatted` (display.rs:257-263);
the terminal probe is an explicit boolean input. -/
def resolve_use_color (opts : DisplayOptions) (is_terminal : Bool) : Bool :=
  if opts.no_color then false
  else if opts.force_color then true
  else is_terminal

/-- The header line printed by `print_formatted` (display.rs:278-291). -/
def header_line (c : GpuStatCollection) (use_color : Bool) : String :=
  let timestr := c.query_time
  let driver := c.driver_version.getD "N/A"
  if use_color then
    bold_white c.hostname ++ "  " ++ timestr ++ "  " ++ dimmed driver
  else c.hostname ++ "  " ++ timestr ++ "  " ++ driver

/-- The line printed when the collection holds no GPUs
(display.rs:298-304). -/
def no_gpus_line (use_color : Bool) : String :=
  if use_color then yellow "(No GPUs are available)"
  else "(No GPUs are available)"

/-- `GpuStatCollection::print_formatted` from display.rs, as the list of
lines it prints in order: optional header, one line per device, and the
no-GPU message when the device list is empty. -/
def print_formatted_lines (c : GpuStatCollection) (opts : DisplayOptions)
    (is_terminal : Bool) : List String :=
  let use_color := resolve_use_color opts is_terminal
  let gpu_width := opts.gpuname_width.getD
    (((c.gpus.map (fun g : GpuStat => g.name.length)).max?.getD 0).max
      DEFAULT_GPUNAME_WIDTH)
  let opts2 := { opts with gpuname_width := some gpu_width }
  (if !opts2.no_header then [header_line c use_color] else []) ++
    c.gpus.map (fun g => format_line g opts2 use_color) ++
    (if c.gpus.isEmpty then [no_gpus_line use_color] else [])

/-- De-duplication by process id keeping the first occurrence, written
directly from the spec's words ("de-duplicated by process id, preserving
first-seen order") to compare with the merge loop of the source. -/
def dedup_first_by_pid : List NvProcess → List NvProcess
  | [] => []
  | p :: rest => p :: dedup_first_by_pid (rest.filter (fun q => q.pid != p.pid))
termination_by l => l.length
decreasing_by
  simp only [List.length_cons]
  exact Nat.lt_succ_of_le (List.length_filter_le _ _)

/-! Concrete environments used by witnesses and counterexamples. -/

/-- A host environment with an empty process table, no users and no
namespace mapping. -/
def sysEmpty : SysEnv :=
  { procTable := fun _ => none, user_name := fun _ => none,
    hostname := .error "no hostname", query_time := "2024-01-01 00:00:00",
    mapping := fun _ => none }

/-- A host environment whose mapping sends 500 to 12345 and whose process
table holds host process 12345 owned by uid 1000 (user alice) running
`/usr/bin/python`. -/
def sysMapped : SysEnv :=
  { procTable := fun p =>
      if p = 12345 then
        some { uid := .ok 1000, cmdline := .ok ["/usr/bin/python"],
               stat_comm := .ok "python" }
      else none,
    user_name := fun u => if u = 1000 then some "alice" else none,
    hostname := .ok "host", query_time := "2024-01-01 00:00:00",
    mapping := fun p => if p = 500 then some 12345 else none }

/-- A host environment whose mapping sends 500 to 12345 but whose process
table is empty, so the remapped lookup fails. -/
def sysUnresolved : SysEnv :=
  { procTable := fun _ => none, user_name := fun _ => none,
    hostname := .error "no hostname", query_time := "2024-01-01 00:00:00",
    mapping := fun p => if p = 500 then some 12345 else none }

/-- A host environment whose mapping sends 7 to itself. -/
def sysSelf : SysEnv :=
  { procTable := fun _ => none, user_name := fun _ => none,
    hostname := .error "no hostname", query_time := "2024-01-01 00:00:00",
    mapping := fun p => if p = 7 then some 7 else none }

/-- An NVML environment reporting three devices, every per-device query
failing. -/
def nvmlThree : NvmlEnv :=
  { device_count := .ok 3, device := fun _ => .error "device gone",
    sys_driver_version := .error "no version" }

/-- An NVML environment reporting one device whose handle query fails with
"boom". -/
def nvmlBoom : NvmlEnv :=
  { device_count := .ok 1, device := fun _ => .error "boom",
    sys_driver_version := .error "no version" }

/-! Theorems for the claims. -/

/-- C4: for every string `text`, width `width` and placeholder,
`shorten_left text width placeholder` has length exactly `width` whenever
`text` is longer than `width`, equals `text` unchanged whenever `text` is
at most `width` long, and is empty when `width = 0`. -/
theorem c4_shorten_truncation_law (text : String) (width : Nat)
    (placeholder : String) :
    (width < text.length →
      (shorten_left text width placeholder).length = width) ∧
    (text.length ≤ width → shorten_left text width placeholder = text) ∧
    (width = 0 → shorten_left text width placeholder = "") := by
  refine ⟨?_, ?_, ?_⟩
  · intro hlt
    unfold shorten_left
    rcases Nat.eq_zero_or_pos width with hw | hw
    · subst hw; simp
    · rw [if_neg (Nat.pos_iff_ne_zero.mp hw), if_neg (Nat.not_le_of_lt hlt)]
      by_cases hp : width ≤ placeholder.length
      · rw [if_pos hp]
        have : (placeholder.toList.take width).asString.length
            = (placeholder.toList.take width).length := rfl
        rw [this, List.length_take]
        have : placeholder.toList.length = placeholder.length := rfl
        omega
      · rw [if_neg hp]
        rw [String.length_append]
        have h1 : (text.toList.drop
            (text.length - (width - placeholder.length))).asString.length
            = (text.toList.drop
              (text.length - (width - placeholder.length))).length := rfl
        rw [h1, List.length_drop]
        have h2 : text.toList.length = text.length := rfl
        omega
  · intro hle
    unfold shorten_left
    rcases Nat.eq_zero_or_pos width with hw | hw
    · subst hw
      simp only [if_pos rfl]
      have hlen : text.length = 0 := Nat.le_zero.mp hle
      cases text with
      | mk data =>
        have : data = [] := List.length_eq_zero.mp hlen
        simp [this]
    · rw [if_neg (Nat.pos_iff_ne_zero.mp hw), if_pos hle]
  · intro hw
    subst hw
    simp [shorten_left]

/-- Witness for C4 at concrete inputs. -/
theorem c4_shorten_truncation_law_witness :
    (shorten_left "NVIDIA GeForce RTX 3090" 16 "…").length = 16 ∧
    shorten_left "RTX 3090" 16 "…" = "RTX 3090" ∧
    shorten_left "RTX 3090" 0 "…" = "" :=
  ⟨(c4_shorten_truncation_law "NVIDIA GeForce RTX 3090" 16 "…").1
      (by decide),
   (c4_shorten_truncation_law "RTX 3090" 16 "…").2.1 (by decide),
   (c4_shorten_truncation_law "RTX 3090" 0 "…").2.2 rfl⟩

/-- C9: a mapping entry whose target equals the reported id behaves as if
no entry existed: the direct-lookup result stands, `from_mapping` is false
and `real_pid` is `none`. -/
theorem c9_self_mapping_is_identity (sys : SysEnv) (pid : Nat)
    (h : sys.mapping pid = some pid) :
    get_process_info sys pid =
      { username := (try_lookup sys pid).1,
        command := (try_lookup sys pid).2,
        from_mapping := false, real_pid := none } ∧
    get_process_info sys pid =
      get_process_info { sys with mapping := fun _ => none } pid := by
  constructor
  · unfold get_process_info
    rw [h]
    simp
  · unfold get_process_info
    rw [h]
    simp [try_lookup]

/-- Witness for C9: a concrete environment mapping 7 to itself. -/
theorem c9_self_mapping_is_identity_witness :
    get_process_info sysSelf 7 =
      { username := (try_lookup sysSelf 7).1,
        command := (try_lookup sysSelf 7).2,
        from_mapping := false, real_pid := none } :=
  (c9_self_mapping_is_identity sysSelf 7 rfl).1

/-- C7: the resolver is a total function (well-formed tuple for every
input, by type), and every internal lookup failure degrades to
`(none, "?", false, none)`: when the direct lookup fails and there is no
mapping entry, when the mapping redirects to a host id whose lookup fails,
and when the mapping entry is the identity and the direct lookup fails. -/
theorem c7_resolver_never_fails (sys : SysEnv) (pid : Nat) :
    (sys.procTable pid = none → sys.mapping pid = none →
      get_process_info sys pid = ⟨none, "?", false, none⟩) ∧
    (∀ rp, sys.mapping pid = some rp → rp ≠ pid → sys.procTable rp = none →
      get_process_info sys pid = ⟨none, "?", false, none⟩) ∧
    (sys.mapping pid = some pid → sys.procTable pid = none →
      get_process_info sys pid = ⟨none, "?", false, none⟩) := by
  refine ⟨?_, ?_, ?_⟩
  · intro hp hm
    simp [get_process_info, try_lookup, hp, hm]
  · intro rp hm hne hp
    simp [get_process_info, try_lookup, hm, hne, hp]
  · intro hm hp
    simp [get_process_info, try_lookup, hm, hp]

/-- Witness for C7: input id 0 with an empty process table and empty
mapping resolves to the degraded tuple. -/
theorem c7_resolver_never_fails_witness :
    get_process_info sysEmpty 0 = ⟨none, "?", false, none⟩ :=
  (c7_resolver_never_fails sysEmpty 0).1 rfl rfl

/-- C1: `from_mapping` is true exactly when the mapping redirects the
reported id to a different host id and the remapped lookup yields a
non-placeholder command; `real_pid` is `some` exactly when `from_mapping`
is true; and whenever the mapping redirects, the direct-lookup result is
discarded in favour of the remapped lookup. -/
theorem c1_mapping_redirection (sys : SysEnv) (pid : Nat) :
    ((get_process_info sys pid).from_mapping = true ↔
      ∃ rp, sys.mapping pid = some rp ∧ rp ≠ pid ∧
        (try_lookup sys rp).2 ≠ "?") ∧
    ((get_process_info sys pid).real_pid.isSome =
      (get_process_info sys pid).from_mapping) ∧
    (∀ rp, sys.mapping pid = some rp → rp ≠ pid →
      (get_process_info sys pid).username = (try_lookup sys rp).1 ∧
      (get_process_info sys pid).command = (try_lookup sys rp).2 ∧
      (get_process_info sys pid).real_pid =
        (if (try_lookup sys rp).2 ≠ "?" then some rp else none)) := by
  simp only [get_process_info]
  cases h : sys.mapping pid with
  | none => simp
  | some rp =>
    by_cases hrp : rp = pid
    · subst hrp
      simp
    · simp only [if_pos hrp]
      by_cases hq : (try_lookup sys rp).2 = "?"
      · refine ⟨?_, ?_, ?_⟩
        · simp [hq]
        · simp [hq]
        · intro rp2 hrp2 hne2
          cases hrp2
          simp [hq]
      · refine ⟨?_, ?_, ?_⟩
        · constructor
          · intro _
            exact ⟨rp, rfl, hrp, hq⟩
          · intro _
            show ((try_lookup sys rp).2 != "?") = true
            simp [bne_iff_ne, hq]
        · simp [bne_iff_ne, hq]
        · intro rp2 hrp2 hne2
          cases hrp2
          simp [bne_iff_ne, hq]

/-- Witness for C1: the mapping 500 to 12345 with a live host process
12345 sets `from_mapping`. -/
theorem c1_mapping_redirection_witness :
    (get_process_info sysMapped 500).from_mapping = true :=
  (c1_mapping_redirection sysMapped 500).1.mpr
    ⟨12345, rfl, by decide, by decide⟩

/-- The merge loop of `get_gpu_info` equals first-occurrence
de-duplication (restricted to pids not yet seen) followed by per-entry
construction. -/
theorem process_merge_loop_eq_dedup (sys : SysEnv) (l : List NvProcess) :
    ∀ seen : List Nat,
      process_merge_loop sys l seen =
        (dedup_first_by_pid
          (l.filter (fun q => !decide (q.pid ∈ seen)))).map
          (mkGpuProcessInfo sys) := by
  induction l with
  | nil =>
    intro seen
    simp [process_merge_loop, dedup_first_by_pid]
  | cons p rest ih =>
    intro seen
    by_cases hp : p.pid ∈ seen
    · rw [show process_merge_loop sys (p :: rest) seen =
          process_merge_loop sys rest seen by
        simp [process_merge_loop, hp]]
      rw [List.filter_cons_of_neg (by simp [hp])]
      exact ih seen
    · have hfil :
          rest.filter (fun q => !decide (q.pid ∈ p.pid :: seen)) =
            (rest.filter (fun q => !decide (q.pid ∈ seen))).filter
              (fun q => q.pid != p.pid) := by
        rw [List.filter_filter]
        apply List.filter_congr
        intro q _
        by_cases h1 : q.pid = p.pid <;> by_cases h2 : q.pid ∈ seen <;>
          simp [h1, h2, List.mem_cons, bne]
      rw [show process_merge_loop sys (p :: rest) seen =
          mkGpuProcessInfo sys p ::
            process_merge_loop sys rest (p.pid :: seen) by
        simp [process_merge_loop, hp]]
      rw [ih (p.pid :: seen), List.filter_cons_of_pos (by simp [hp])]
      simp only [dedup_first_by_pid, List.map_cons]
      rw [hfil]

/-- C2: the merged process list is `none` (unsupported) exactly when both
queries fail; otherwise it is the compute list followed by the graphics
list (each empty on its own failure), de-duplicated by pid keeping the
first occurrence, each entry resolved into a `GpuProcessInfo`. -/
theorem c2_process_list_tristate (sys : SysEnv)
    (comp_result graphics_result : Except String (List NvProcess)) :
    (merge_processes sys comp_result graphics_result = none ↔
      exceptIsErr comp_result = true ∧ exceptIsErr graphics_result = true) ∧
    (exceptIsErr comp_result = false ∨ exceptIsErr graphics_result = false →
      merge_processes sys comp_result graphics_result =
        some ((dedup_first_by_pid
            (unwrap_or_default comp_result ++
              unwrap_or_default graphics_result)).map
          (mkGpuProcessInfo sys))) := by
  unfold merge_processes
  by_cases h1 : exceptIsErr comp_result
  · by_cases h2 : exceptIsErr graphics_result
    · simp [h1, h2]
    · simp [h1, h2, process_merge_loop_eq_dedup]
  · by_cases h2 : exceptIsErr graphics_result
    · simp [h1, h2, process_merge_loop_eq_dedup]
    · simp [h1, h2, process_merge_loop_eq_dedup]

/-- A sample compute-process query result: pids 100, 200, 100. -/
def compSample : Except String (List NvProcess) :=
  .ok [⟨100, .Unavailable⟩, ⟨200, .Used 0⟩, ⟨100, .Used (5 * MB)⟩]

/-- A sample failed graphics-process query result. -/
def graphSample : Except String (List NvProcess) :=
  .error "api failed"

/-- Witness for C2: one succeeding and one failing query produce the
de-duplicated supported list. -/
theorem c2_process_list_tristate_witness :
    merge_processes sysEmpty compSample graphSample =
      some ((dedup_first_by_pid
          (unwrap_or_default compSample ++
            unwrap_or_default graphSample)).map
        (mkGpuProcessInfo sysEmpty)) :=
  (c2_process_list_tristate sysEmpty compSample graphSample).2 (Or.inl rfl)

/-- C3: when sampling the device at position `k` of the selection fails
with error `e`, the whole query still succeeds; position `k` of the result
holds the placeholder sample with the error text in the name, empty uuid,
all metrics unset, process list unset and `available = false`; every other
position holds exactly what its own device's sampling produced. -/
theorem c3_per_device_failure_placeholder (sys : SysEnv) (nvml : NvmlEnv)
    (gpu_ids : Option (List Nat)) (n : Nat) (k : Nat) (e : String)
    (hn : nvml.device_count = .ok n)
    (hk : k < (gpus_to_query gpu_ids n).length)
    (he : get_gpu_info sys nvml ((gpus_to_query gpu_ids n).get ⟨k, hk⟩) =
      .error e) :
    ∃ c, new_query sys nvml gpu_ids = .ok c ∧
      c.gpus = (gpus_to_query gpu_ids n).map (sample_or_placeholder sys nvml) ∧
      c.gpus[k]? =
        some (errorGpuStat ((gpus_to_query gpu_ids n).get ⟨k, hk⟩) e) ∧
      (errorGpuStat ((gpus_to_query gpu_ids n).get ⟨k, hk⟩) e).name =
        "((Error: " ++ e ++ "))" ∧
      (errorGpuStat ((gpus_to_query gpu_ids n).get ⟨k, hk⟩) e).uuid = "" ∧
      (errorGpuStat ((gpus_to_query gpu_ids n).get ⟨k, hk⟩) e).temperature
        = none ∧
      (errorGpuStat ((gpus_to_query gpu_ids n).get ⟨k, hk⟩) e).fan_speed
        = none ∧
      (errorGpuStat ((gpus_to_query gpu_ids n).get ⟨k, hk⟩) e).utilization
        = none ∧
      (errorGpuStat ((gpus_to_query gpu_ids n).get ⟨k, hk⟩) e).utilization_enc
        = none ∧
      (errorGpuStat ((gpus_to_query gpu_ids n).get ⟨k, hk⟩) e).utilization_dec
        = none ∧
      (errorGpuStat ((gpus_to_query gpu_ids n).get ⟨k, hk⟩) e).power_draw
        = none ∧
      (errorGpuStat ((gpus_to_query gpu_ids n).get ⟨k, hk⟩) e).power_limit
        = none ∧
      (errorGpuStat ((gpus_to_query gpu_ids n).get ⟨k, hk⟩) e).processes
        = none ∧
      (errorGpuStat ((gpus_to_query gpu_ids n).get ⟨k, hk⟩) e).available
        = false ∧
      (∀ j : Nat, c.gpus[j]? =
        ((gpus_to_query gpu_ids n)[j]?).map (sample_or_placeholder sys nvml)) := by
  have hq : new_query sys nvml gpu_ids = .ok
      { hostname := match sys.hostname with | .ok h => h | .error _ => "unknown",
        query_time := sys.query_time,
        driver_version := nvml.sys_driver_version.toOption,
        gpus := (gpus_to_query gpu_ids n).map (sample_or_placeholder sys nvml) } := by
    unfold new_query
    rw [hn]
  refine ⟨_, hq, rfl, ?_, rfl, rfl, rfl, rfl, rfl, rfl, rfl, rfl, rfl, rfl,
    rfl, ?_⟩
  · rw [List.getElem?_map, List.getElem?_eq_getElem hk]
    show some (sample_or_placeholder sys nvml
      ((gpus_to_query gpu_ids n).get ⟨k, hk⟩)) = _
    unfold sample_or_placeholder
    rw [he]
  · intro j
    show ((gpus_to_query gpu_ids n).map (sample_or_placeholder sys nvml))[j]?
      = _
    exact List.getElem?_map _ _ _

/-- Witness for C3: a one-device environment whose device query fails with
"boom". -/
theorem c3_per_device_failure_placeholder_witness :
    ∃ c, new_query sysEmpty nvmlBoom none = .ok c ∧
      c.gpus = (gpus_to_query none 1).map (sample_or_placeholder sysEmpty nvmlBoom) ∧
      c.gpus[0]? =
        some (errorGpuStat ((gpus_to_query none 1).get ⟨0, by decide⟩) "boom") ∧
      (errorGpuStat ((gpus_to_query none 1).get ⟨0, by decide⟩) "boom").name =
        "((Error: " ++ "boom" ++ "))" ∧
      (errorGpuStat ((gpus_to_query none 1).get ⟨0, by decide⟩) "boom").uuid = "" ∧
      (errorGpuStat ((gpus_to_query none 1).get ⟨0, by decide⟩) "boom").temperature
        = none ∧
      (errorGpuStat ((gpus_to_query none 1).get ⟨0, by decide⟩) "boom").fan_speed
        = none ∧
      (errorGpuStat ((gpus_to_query none 1).get ⟨0, by decide⟩) "boom").utilization
        = none ∧
      (errorGpuStat ((gpus_to_query none 1).get ⟨0, by decide⟩) "boom").utilization_enc
        = none ∧
      (errorGpuStat ((gpus_to_query none 1).get ⟨0, by decide⟩) "boom").utilization_dec
        = none ∧
      (errorGpuStat ((gpus_to_query none 1).get ⟨0, by decide⟩) "boom").power_draw
        = none ∧
      (errorGpuStat ((gpus_to_query none 1).get ⟨0, by decide⟩) "boom").power_limit
        = none ∧
      (errorGpuStat ((gpus_to_query none 1).get ⟨0, by decide⟩) "boom").processes
        = none ∧
      (errorGpuStat ((gpus_to_query none 1).get ⟨0, by decide⟩) "boom").available
        = false ∧
      (∀ j : Nat, c.gpus[j]? =
        ((gpus_to_query none 1)[j]?).map (sample_or_placeholder sysEmpty nvmlBoom)) :=
  c3_per_device_failure_placeholder sysEmpty nvmlBoom none 1 0 "boom" rfl
    (by decide) rfl

/-- A successfully sampled device carries the index it was sampled at. -/
theorem get_gpu_info_index (sys : SysEnv) (nvml : NvmlEnv) (i : Nat)
    (stat : GpuStat) (h : get_gpu_info sys nvml i = .ok stat) :
    stat.index = i := by
  unfold get_gpu_info at h
  simp only [Bind.bind, Except.bind] at h
  repeat' split at h
  all_goals first
    | exact Except.noConfusion h
    | (cases h; rfl)

/-- Every entry of the device loop, sampled or placeholder, carries its own
index. -/
theorem sample_or_placeholder_index (sys : SysEnv) (nvml : NvmlEnv)
    (i : Nat) : (sample_or_placeholder sys nvml i).index = i := by
  unfold sample_or_placeholder
  cases h : get_gpu_info sys nvml i with
  | ok stat => exact get_gpu_info_index sys nvml i stat h
  | error e => rfl

/-- Mapping the device loop over a selection and reading back the indices
returns the selection. -/
theorem map_index_sample (sys : SysEnv) (nvml : NvmlEnv) (ids : List Nat) :
    (ids.map (sample_or_placeholder sys nvml)).map (fun g => g.index)
      = ids := by
  induction ids with
  | nil => rfl
  | cons i rest ih => simp [sample_or_placeholder_index, ih]

/-- C5 counterexample: with the explicit selection [2, 0] the collection's
device sequence carries indices [2, 0], which is not in ascending order. -/
theorem c5_counterexample :
    (new_query sysEmpty nvmlThree (some [2, 0])).map
      (fun c => c.gpus.map (fun g => g.index)) = .ok [2, 0] ∧
    ¬ List.Sorted (fun a b : Nat => a ≤ b) [2, 0] := by
  constructor
  · rfl
  · decide

/-- C5 amended: the aggregator samples the selected indices in selection
order and the device sequence carries exactly the selected indices in that
order; for the default selection (0 to device_count - 1) that order is
ascending. -/
theorem c5_selection_order (sys : SysEnv) (nvml : NvmlEnv)
    (gpu_ids : Option (List Nat)) (n : Nat)
    (hn : nvml.device_count = .ok n) :
    ∃ c, new_query sys nvml gpu_ids = .ok c ∧
      c.gpus = (gpus_to_query gpu_ids n).map (sample_or_placeholder sys nvml) ∧
      c.gpus.map (fun g => g.index) = gpus_to_query gpu_ids n ∧
      (gpu_ids = none →
        List.Sorted (fun a b : Nat => a < b)
          (c.gpus.map (fun g => g.index))) := by
  have hq : new_query sys nvml gpu_ids = .ok
      { hostname := match sys.hostname with | .ok h => h | .error _ => "unknown",
        query_time := sys.query_time,
        driver_version := nvml.sys_driver_version.toOption,
        gpus := (gpus_to_query gpu_ids n).map (sample_or_placeholder sys nvml) } := by
    unfold new_query
    rw [hn]
  refine ⟨_, hq, rfl, map_index_sample sys nvml _, ?_⟩
  intro hnone
  rw [map_index_sample sys nvml _]
  subst hnone
  exact List.sorted_lt_range n

/-- Witness for C5 at a concrete three-device environment with the default
selection. -/
theorem c5_selection_order_witness :
    ∃ c, new_query sysEmpty nvmlThree none = .ok c ∧
      c.gpus = (gpus_to_query none 3).map
        (sample_or_placeholder sysEmpty nvmlThree) ∧
      c.gpus.map (fun g => g.index) = gpus_to_query none 3 ∧
      (none = (none : Option (List Nat)) →
        List.Sorted (fun a b : Nat => a < b)
          (c.gpus.map (fun g => g.index))) :=
  c5_selection_order sysEmpty nvmlThree none 3 rfl

/-- A process segment with pid display contains the `/`-prefixed pid
string built by `pid_str`. -/
theorem format_process_pid_segment (p : GpuProcessInfo)
    (opts : DisplayOptions) (hsp : opts.show_pid = true) :
    ∃ pre post, format_process p opts false =
      pre ++ "/" ++ pid_str p ++ post := by
  refine ⟨(let s := " ";
      let s := if opts.show_user || !opts.show_cmd then
          s ++ p.username.getD "--"
        else s;
      if opts.show_cmd then
        (if opts.show_user || !opts.show_cmd then s ++ ":" else s)
          ++ p.command
      else s),
    "(" ++ (match p.gpu_memory_usage with
            | some m => toString m
            | none => "?") ++ "M)", ?_⟩
  simp [format_process, hsp, String.append_assoc]

/-- C6 counterexample: the mapping holds 500 -> 12345 with 500 different
from 12345, yet because host process 12345 cannot be looked up the
attribution carries no real_pid and no mapping flag, and the pid segment
renders as "500". -/
theorem c6_counterexample :
    sysUnresolved.mapping 500 = some 12345 ∧ (500 : Nat) ≠ 12345 ∧
    (mkGpuProcessInfo sysUnresolved ⟨500, .Unavailable⟩).real_pid
      ≠ some 12345 ∧
    (mkGpuProcessInfo sysUnresolved
      ⟨500, .Unavailable⟩).username_from_ngid_mapping = false ∧
    pid_str (mkGpuProcessInfo sysUnresolved ⟨500, .Unavailable⟩) = "500" := by
  refine ⟨rfl, by decide, by decide, rfl, rfl⟩

/-- C6 amended: when the mapping sends the reported id to a different host
id and the remapped lookup yields a non-placeholder command, the
attribution carries `real_pid = some host`, the mapping flag, and the pid
segment renders as `"<reported>-><host>"`; when the fallback was not used
(`real_pid = none`) the segment is the reported id alone. -/
theorem c6_pid_rendering (sys : SysEnv) (nv : NvProcess) (rp : Nat)
    (h1 : sys.mapping nv.pid = some rp) (h2 : rp ≠ nv.pid)
    (h3 : (try_lookup sys rp).2 ≠ "?") :
    (mkGpuProcessInfo sys nv).real_pid = some rp ∧
    (mkGpuProcessInfo sys nv).username_from_ngid_mapping = true ∧
    pid_str (mkGpuProcessInfo sys nv) =
      toString nv.pid ++ "->" ++ toString rp ∧
    (∀ p : GpuProcessInfo, p.real_pid = none →
      pid_str p = toString p.pid) ∧
    (∀ opts : DisplayOptions, opts.show_pid = true →
      ∃ pre post, format_process (mkGpuProcessInfo sys nv) opts false =
        pre ++ "/" ++ (toString nv.pid ++ "->" ++ toString rp) ++ post) := by
  have hr2 : (get_process_info sys nv.pid).real_pid = some rp := by
    simp [get_process_info, h1, h2, bne_iff_ne, h3]
  have hr : (mkGpuProcessInfo sys nv).real_pid = some rp := by
    simp [mkGpuProcessInfo, get_process_info, h1, h2, bne_iff_ne, h3]
  have hps : pid_str (mkGpuProcessInfo sys nv) =
      toString nv.pid ++ "->" ++ toString rp := by
    simp only [pid_str, mkGpuProcessInfo]
    rw [hr2]
  refine ⟨hr, ?_, hps, ?_, ?_⟩
  · simp [mkGpuProcessInfo, get_process_info, h1, h2, bne_iff_ne, h3]
  · intro p hp
    simp [pid_str, hp]
  · intro opts hsp
    obtain ⟨pre, post, hfp⟩ :=
      format_process_pid_segment (mkGpuProcessInfo sys nv) opts hsp
    rw [hps] at hfp
    exact ⟨pre, post, hfp⟩

/-- Witness for C6: mapping 500 -> 12345 with a live host process 12345
running /usr/bin/python produces the "500->12345" segment. -/
theorem c6_pid_rendering_witness :
    (mkGpuProcessInfo sysMapped ⟨500, .Used 0⟩).real_pid = some 12345 ∧
    (mkGpuProcessInfo sysMapped
      ⟨500, .Used 0⟩).username_from_ngid_mapping = true ∧
    pid_str (mkGpuProcessInfo sysMapped ⟨500, .Used 0⟩) =
      toString (500 : Nat) ++ "->" ++ toString (12345 : Nat) ∧
    (∀ p : GpuProcessInfo, p.real_pid = none →
      pid_str p = toString p.pid) ∧
    (∀ opts : DisplayOptions, opts.show_pid = true →
      ∃ pre post, format_process (mkGpuProcessInfo sysMapped ⟨500, .Used 0⟩)
          opts false =
        pre ++ "/" ++ (toString (500 : Nat) ++ "->" ++ toString (12345 : Nat))
          ++ post) :=
  c6_pid_rendering sysMapped ⟨500, .Used 0⟩ 12345 rfl (by decide) (by decide)

/-- A collection with no devices, used by the rendering claims. -/
def emptyCollection : GpuStatCollection :=
  { hostname := "myhost", query_time := "2024-01-01 00:00:00",
    driver_version := none, gpus := [] }

/-- The all-default display options record. -/
def defaultOpts : DisplayOptions :=
  { show_cmd := false, show_user := false, show_pid := false,
    show_fan_speed := false, show_codec := false, show_power := false,
    show_power_limit := false, no_processes := false, no_header := false,
    gpuname_width := none, force_color := false, no_color := false }

/-- Default options with the header suppressed and color disabled. -/
def headerlessOpts : DisplayOptions :=
  { defaultOpts with no_header := true, no_color := true }

/-- C8 counterexample: with an empty device sequence and default options
the renderer emits two lines (header and message), not exactly one. -/
theorem c8_counterexample :
    print_formatted_lines emptyCollection defaultOpts false =
      ["myhost  2024-01-01 00:00:00  N/A", "(No GPUs are available)"] ∧
    (print_formatted_lines emptyCollection defaultOpts false).length ≠ 1 := by
  constructor
  · rfl
  · decide

/-- C8 amended: for an empty device sequence the renderer emits the
optional header followed by exactly one line; with the header suppressed
the output is exactly one line, whose (unstyled) text is
"(No GPUs are available)". -/
theorem c8_no_gpus_rendering (c : GpuStatCollection)
    (opts : DisplayOptions) (t : Bool) (h : c.gpus = []) :
    print_formatted_lines c opts t =
      (if opts.no_header then []
       else [header_line c (resolve_use_color opts t)]) ++
        [no_gpus_line (resolve_use_color opts t)] ∧
    (opts.no_header = true →
      print_formatted_lines c opts t =
        [no_gpus_line (resolve_use_color opts t)]) ∧
    no_gpus_line false = "(No GPUs are available)" := by
  refine ⟨?_, ?_, rfl⟩
  · unfold print_formatted_lines
    rw [h]
    cases hnh : opts.no_header <;> simp [hnh]
  · intro hh
    unfold print_formatted_lines
    rw [h]
    simp [hh]

/-- Witness for C8: the empty collection with header suppressed renders
exactly the one no-GPU line. -/
theorem c8_no_gpus_rendering_witness :
    print_formatted_lines emptyCollection headerlessOpts false =
      [no_gpus_line (resolve_use_color headerlessOpts false)] :=
  (c8_no_gpus_rendering emptyCollection headerlessOpts false rfl).2.1 rfl

/-- C10: the placeholder sample of a failed device carries memory_used and
memory_total equal to 0 (memory is not optional), and its rendered line
shows the memory segment "    0 /     0 MB" rather than a placeholder
marker. -/
theorem c10_unavailable_memory_zero (i : Nat) (e : String)
    (opts : DisplayOptions) :
    (errorGpuStat i e).memory_used = 0 ∧
    (errorGpuStat i e).memory_total = 0 ∧
    format_line_mem (errorGpuStat i e) false = " |     0 /     0 MB" ∧
    ∃ pre post, format_line (errorGpuStat i e) opts false =
      pre ++ "    0 /     0 MB" ++ post := by
  have hmem : format_line_mem (errorGpuStat i e) false =
      " | " ++ "    0 /     0 MB" := by
    unfold format_line_mem
    rw [show (errorGpuStat i e).memory_used = 0 from rfl,
      show (errorGpuStat i e).memory_total = 0 from rfl]
    rfl
  refine ⟨rfl, rfl, by rw [hmem]; rfl,
    format_line_lead (errorGpuStat i e) opts false ++ " | ",
    format_line_procs (errorGpuStat i e) opts false, ?_⟩
  show format_line_lead (errorGpuStat i e) opts false ++
      format_line_mem (errorGpuStat i e) false ++
      format_line_procs (errorGpuStat i e) opts false = _
  rw [hmem, ← String.append_assoc]

end GpustatRs
